import Mathlib

/-!
Verification of the MeetingService core (`app.py`): a shallow embedding of
the agenda-item codec, the meeting persistence model, the meeting-code
generator and the HTTP handlers, with theorems settling the spec's claims.

JSON-like values are modelled by `JVal`; Python dicts by association lists
with first-match lookup (Python dicts have unique keys, so first-match
lookup agrees with dict lookup on every object the service builds).
-/

/-- JSON-like values as handled by the service. -/
inductive JVal where
  | str : String → JVal
  | int : Int → JVal
  | bool : Bool → JVal
  | list : List JVal → JVal
  | obj : List (String × JVal) → JVal

/-- A Python dict, in insertion order. -/
abbrev Obj := List (String × JVal)

/-- `type(v) is str` for a looked-up field: present and a string.
Note Python `type(True) is str` is `False`, matching the `.bool` case. -/
def isSomeStr : Option JVal → Bool
  | some (.str _) => true
  | some (.int _) => false
  | some (.bool _) => false
  | some (.list _) => false
  | some (.obj _) => false
  | none => false

/-- Line 95: `("title" not in item) or not (type(item["title"]) is str)`,
negated: the title field is present and is a string. -/
def titleIsStr (item : Obj) : Bool := isSomeStr (item.lookup "title")

/-- Lines 102-104: every element of `positions` must be a string;
return the first violation's error message. -/
def checkPositions : List JVal → Option String
  | [] => none
  | .str _ :: rest => checkPositions rest
  | _ :: _ => some "Election agenda item positions must be strings"

/-- Lines 111-119: each base motion must be a dict with string `owner`
and string `motion`; return the first violation's error message. -/
def checkBaseMotions : List JVal → Option String
  | [] => none
  | .obj bm :: rest =>
      if !isSomeStr (bm.lookup "owner") then
        some "Motion agenda item baseMotions must have owner"
      else if !isSomeStr (bm.lookup "motion") then
        some "Motion agenda item baseMotions must have motion"
      else checkBaseMotions rest
  | _ :: _ => some "Motion agenda item baseMotions must be objects"

/-- Lines 90-128, `verify_agenda_item`: `none` means valid, `some msg` the
first validation error.  The Python `match item["type"]` dispatches on the
value of the `type` field; any value other than the three variant strings
falls to `case _` (invalid type), but only after the `type`-presence and
`title` checks have passed. -/
def verify_agenda_item (item : Obj) : Option String :=
  if (item.lookup "type").isNone then some "Agenda item must include type"
  else if !titleIsStr item then some "Agenda item must have title"
  else match item.lookup "type" with
  | some (.str "election") =>
      match item.lookup "positions" with
      | some (.list ps) => checkPositions ps
      | _ => some "Election agenda item must have positions list"
  | some (.str "motion") =>
      match item.lookup "description" with
      | some (.str _) =>
          match item.lookup "baseMotions" with
          | some (.list bms) => checkBaseMotions bms
          | _ => some "Motion agenda item must have baseMotions list"
      | _ => some "Motion agenda item must have description"
  | some (.str "info") =>
      match item.lookup "description" with
      | some (.str _) => none
      | _ => some "Info agenda item must have description"
  | _ => some "Invalid agenda item type"

/-- Lines 130-157, `serialize_agenda_item`: verify, then project exactly the
variant's fields.  `.error` carries the validation error (Python returns the
`(jsonify(...), 400)` tuple); the inner `.error "KeyError"` branches model
the Python `KeyError` a missing field would raise, and are unreachable once
verification has passed. -/
def serialize_agenda_item (item : Obj) : Except String Obj :=
  match verify_agenda_item item with
  | some e => .error e
  | none =>
    match item.lookup "type" with
    | some (.str "election") =>
        match item.lookup "title", item.lookup "positions" with
        | some tv, some pv =>
            .ok [("type", .str "election"), ("title", tv), ("positions", pv)]
        | _, _ => .error "KeyError"
    | some (.str "motion") =>
        match item.lookup "title", item.lookup "description",
              item.lookup "baseMotions" with
        | some tv, some dv, some bv =>
            .ok [("type", .str "motion"), ("title", tv),
                 ("description", dv), ("baseMotions", bv)]
        | _, _, _ => .error "KeyError"
    | some (.str "info") =>
        match item.lookup "title", item.lookup "description" with
        | some tv, some dv =>
            .ok [("type", .str "info"), ("title", tv), ("description", dv)]
        | _, _ => .error "KeyError"
    | _ => .error "KeyError"

/-- The tag values the Python `match` recognises. -/
def isVariantTag : JVal → Bool
  | .str "election" => true
  | .str "motion" => true
  | .str "info" => true
  | .str _ => false
  | .int _ => false
  | .bool _ => false
  | .list _ => false
  | .obj _ => false

lemma lookup_title_of_titleIsStr (item : Obj) (h : titleIsStr item = true) :
    ∃ s, item.lookup "title" = some (.str s) := by
  unfold titleIsStr at h
  cases hl : item.lookup "title" with
  | none => rw [hl] at h; simp [isSomeStr] at h
  | some v =>
    rw [hl] at h
    cases v with
    | str s => exact ⟨s, rfl⟩
    | int n => simp [isSomeStr] at h
    | bool b => simp [isSomeStr] at h
    | list l => simp [isSomeStr] at h
    | obj o => simp [isSomeStr] at h

lemma serialize_eq_election (item : Obj) (tv pv : JVal)
    (hv : verify_agenda_item item = none)
    (hty : item.lookup "type" = some (.str "election"))
    (htv : item.lookup "title" = some tv)
    (hpv : item.lookup "positions" = some pv) :
    serialize_agenda_item item =
      .ok [("type", .str "election"), ("title", tv), ("positions", pv)] := by
  unfold serialize_agenda_item
  rw [hv, hty, htv, hpv]
  rfl

lemma serialize_eq_motion (item : Obj) (tv dv bv : JVal)
    (hv : verify_agenda_item item = none)
    (hty : item.lookup "type" = some (.str "motion"))
    (htv : item.lookup "title" = some tv)
    (hdv : item.lookup "description" = some dv)
    (hbv : item.lookup "baseMotions" = some bv) :
    serialize_agenda_item item =
      .ok [("type", .str "motion"), ("title", tv),
           ("description", dv), ("baseMotions", bv)] := by
  unfold serialize_agenda_item
  rw [hv, hty, htv, hdv, hbv]
  rfl

lemma serialize_eq_info (item : Obj) (tv dv : JVal)
    (hv : verify_agenda_item item = none)
    (hty : item.lookup "type" = some (.str "info"))
    (htv : item.lookup "title" = some tv)
    (hdv : item.lookup "description" = some dv) :
    serialize_agenda_item item =
      .ok [("type", .str "info"), ("title", tv), ("description", dv)] := by
  unfold serialize_agenda_item
  rw [hv, hty, htv, hdv]
  rfl

/-- C1: for every agenda item input that passes validation,
`serialize_agenda_item` succeeds and its output carries exactly the fields of
the input's variant — `{type, title, positions}` for election, `{type, title,
description, baseMotions}` for motion, `{type, title, description}` for info —
so any extra input fields are dropped. -/
theorem serialize_agenda_item_exact_fields (item : Obj)
    (h : verify_agenda_item item = none) :
    ∃ tag out, item.lookup "type" = some (.str tag) ∧
      serialize_agenda_item item = .ok out ∧
      ((tag = "election" ∧ out.map Prod.fst = ["type", "title", "positions"]) ∨
       (tag = "motion" ∧
         out.map Prod.fst = ["type", "title", "description", "baseMotions"]) ∨
       (tag = "info" ∧ out.map Prod.fst = ["type", "title", "description"])) := by
  have hv := h
  unfold verify_agenda_item at h
  split at h
  · exact absurd h (by simp)
  split at h
  · exact absurd h (by simp)
  rename_i hty htl
  have htitle : titleIsStr item = true := by
    revert htl; cases titleIsStr item <;> simp
  obtain ⟨ts, hts⟩ := lookup_title_of_titleIsStr item htitle
  split at h
  · rename_i hty'
    -- election
    split at h
    · rename_i ps hps
      exact ⟨"election", _, hty', serialize_eq_election item _ _ hv hty' hts hps,
        Or.inl ⟨rfl, rfl⟩⟩
    · exact absurd h (by simp)
  · rename_i hty'
    -- motion
    split at h
    · rename_i ds hds
      split at h
      · rename_i bms hbms
        exact ⟨"motion", _, hty',
          serialize_eq_motion item _ _ _ hv hty' hts hds hbms,
          Or.inr (Or.inl ⟨rfl, rfl⟩)⟩
      · exact absurd h (by simp)
    · exact absurd h (by simp)
  · rename_i hty'
    -- info
    split at h
    · rename_i ds hds
      exact ⟨"info", _, hty', serialize_eq_info item _ _ hv hty' hts hds,
        Or.inr (Or.inr ⟨rfl, rfl⟩)⟩
    · exact absurd h (by simp)
  · exact absurd h (by simp)

/-- Witness for C1: a concrete valid election item (with an extra field)
serializes to exactly the election fields. -/
theorem serialize_agenda_item_exact_fields_witness :
    verify_agenda_item
      [("type", .str "election"), ("title", .str "Chair"),
       ("positions", .list [.str "A"]), ("extra", .int 7)] = none ∧
    ∃ tag out,
      (([("type", JVal.str "election"), ("title", JVal.str "Chair"),
         ("positions", JVal.list [JVal.str "A"]),
         ("extra", JVal.int 7)] : Obj).lookup "type" = some (.str tag)) ∧
      serialize_agenda_item
        [("type", .str "election"), ("title", .str "Chair"),
         ("positions", .list [.str "A"]), ("extra", .int 7)] = .ok out ∧
      ((tag = "election" ∧ out.map Prod.fst = ["type", "title", "positions"]) ∨
       (tag = "motion" ∧
         out.map Prod.fst = ["type", "title", "description", "baseMotions"]) ∨
       (tag = "info" ∧ out.map Prod.fst = ["type", "title", "description"])) :=
  ⟨rfl, serialize_agenda_item_exact_fields _ rfl⟩

/-- C5 (amended): for every agenda item input whose type field is present and
whose title field is absent or not text, `verify_agenda_item` fails with the
MissingTitle error.  (An empty-string title is text to the code and is
accepted; see the counterexample.) -/
theorem missing_or_nonstring_title_rejected (item : Obj)
    (h1 : (item.lookup "type").isSome = true)
    (h2 : titleIsStr item = false) :
    verify_agenda_item item = some "Agenda item must have title" := by
  obtain ⟨v, hv⟩ := Option.isSome_iff_exists.mp h1
  unfold verify_agenda_item
  rw [hv]
  simp [h2]

/-- Witness for C5: a motion item whose title is a number is rejected with
the MissingTitle error. -/
theorem missing_or_nonstring_title_rejected_witness :
    verify_agenda_item [("type", .str "motion"), ("title", .int 3)] =
      some "Agenda item must have title" :=
  missing_or_nonstring_title_rejected
    [("type", .str "motion"), ("title", .int 3)] rfl rfl

/-- Counterexample to C5 as stated: an info item whose title is the empty
string passes validation (`none` = no error) and serializes successfully, so
an empty-string title is NOT rejected. -/
theorem empty_title_accepted_counterexample :
    verify_agenda_item
      [("type", .str "info"), ("title", .str ""),
       ("description", .str "Intro")] = none ∧
    serialize_agenda_item
      [("type", .str "info"), ("title", .str ""),
       ("description", .str "Intro")] =
      .ok [("type", .str "info"), ("title", .str ""),
           ("description", .str "Intro")] :=
  ⟨rfl, rfl⟩

/-- C4 (amended): when the type field is present but its value is none of the
three variant tags, the codec reports InvalidItemType only if the title check
has already passed; with an absent or non-text title it reports MissingTitle
instead, because the title check runs before the variant dispatch. -/
theorem title_checked_before_type_membership (item : Obj) (tv : JVal)
    (hty : item.lookup "type" = some tv)
    (hnv : isVariantTag tv = false) :
    verify_agenda_item item =
      some (if titleIsStr item then "Invalid agenda item type"
            else "Agenda item must have title") := by
  unfold verify_agenda_item
  rw [hty]
  by_cases htl : titleIsStr item = true
  · rw [htl]
    simp only [Option.isNone_some, Bool.false_eq_true, if_false, htl,
      Bool.not_true, if_true, if_false]
    cases tv with
    | str s =>
      have h1 : s ≠ "election" := by
        rintro rfl; simp [isVariantTag] at hnv
      have h2 : s ≠ "motion" := by
        rintro rfl; simp [isVariantTag] at hnv
      have h3 : s ≠ "info" := by
        rintro rfl; simp [isVariantTag] at hnv
      split
      · rename_i heq
        rw [Option.some_inj] at heq
        cases heq; exact absurd rfl h1
      · rename_i heq
        rw [Option.some_inj] at heq
        cases heq; exact absurd rfl h2
      · rename_i heq
        rw [Option.some_inj] at heq
        cases heq; exact absurd rfl h3
      · rfl
    | int n => rfl
    | bool b => rfl
    | list l => rfl
    | obj o => rfl
  · have htl' : titleIsStr item = false := by
      revert htl; cases titleIsStr item <;> simp
    rw [htl']
    simp [htl']

/-- Witness for C4 (amended): a non-string type value with a valid title
yields InvalidItemType; `isVariantTag` of that value is false. -/
theorem title_checked_before_type_membership_witness :
    verify_agenda_item [("type", .int 5), ("title", .str "T")] =
      some (if titleIsStr [("type", .int 5), ("title", .str "T")]
            then "Invalid agenda item type"
            else "Agenda item must have title") :=
  title_checked_before_type_membership
    [("type", .int 5), ("title", .str "T")] (.int 5) rfl rfl

/-- Counterexample to C4 as stated: an input whose type is present but not a
variant tag and whose title is missing fails with the MissingTitle error, not
with InvalidItemType — the title check precedes the variant-tag dispatch. -/
theorem unknown_type_missing_title_counterexample :
    verify_agenda_item [("type", .str "bogus")] =
      some "Agenda item must have title" ∧
    verify_agenda_item [("type", .str "bogus")] ≠
      some "Invalid agenda item type" := by
  refine ⟨rfl, ?_⟩
  intro h
  rw [show verify_agenda_item [("type", .str "bogus")] =
      some "Agenda item must have title" from rfl] at h
  simp at h

/-! ## Persistence model and handlers -/

/-- A stored meeting document (collection `meetings`).  `meeting_name` is
stored as whatever JSON value the create request supplied (the code does not
check its shape); `current_item` is a Python int. -/
structure Meeting where
  meeting_id : String
  meeting_name : JVal
  current_item : Int
  meeting_code : String

/-- The two MongoDB collections the service uses.  Agenda item documents are
kept verbatim (a document holds `_id`, `meeting_id` and the item fields);
lists are in insertion order, matching Mongo's natural order for these
queries. -/
structure DB where
  meetings : List Meeting
  agenda_items : List Obj

/-- `c.isHexDigit` spelled out: the characters `uuid.UUID` accepts in the
canonical dashed form. -/
def isHexChar (c : Char) : Bool :=
  c.isDigit || (('a' ≤ c && c ≤ 'f') || ('A' ≤ c && c ≤ 'F'))

/-- `str.lower()` character by character (ASCII suffices for UUID text). -/
def lower_str (s : String) : String := ⟨s.data.map Char.toLower⟩

/-- The canonical 8-4-4-4-12 dashed UUID shape. -/
def valid_uuid (s : String) : Bool :=
  let cs := s.toList
  cs.length == 36 &&
  (List.range 36).all (fun i =>
    if i == 8 || i == 13 || i == 18 || i == 23 then cs.getD i ' ' == '-'
    else isHexChar (cs.getD i ' '))

/-- Lines 59-64, `to_uuid`: models `str(uuid.UUID(id_str))` for the
canonical 8-4-4-4-12 dashed form, which `str(...)` returns lowercased.
(The Python library also accepts alternate spellings — braces, urn prefix,
no dashes — not modelled here; every identifier the service itself creates
is already in canonical lowercase form.) -/
def to_uuid (s : String) : Option String :=
  if valid_uuid s then some (lower_str s) else none

/-- `f"{n:06d}"` for `n ≤ 999999` (the range `random.randint(0, 999999)`
draws from): the six decimal digits of `n`, zero-padded. -/
def format06 (n : Nat) : String :=
  String.mk [Nat.digitChar (n / 100000 % 10), Nat.digitChar (n / 10000 % 10),
             Nat.digitChar (n / 1000 % 10), Nat.digitChar (n / 100 % 10),
             Nat.digitChar (n / 10 % 10), Nat.digitChar (n % 10)]

/-- `mongo.db.meetings.find_one({"meeting_id": uid})`. -/
def find_meeting (db : DB) (uid : String) : Option Meeting :=
  db.meetings.find? (fun m => m.meeting_id == uid)

/-- `mongo.db.agenda_items.find({"meeting_id": uid})`, in insertion order. -/
def agenda_for (db : DB) (uid : String) : List Obj :=
  db.agenda_items.filter (fun it =>
    match it.lookup "meeting_id" with
    | some (.str s) => s == uid
    | _ => false)

/-- `mongo.db.agenda_items.count_documents({"meeting_id": uid})`. -/
def count_agenda_items (db : DB) (uid : String) : Nat :=
  (agenda_for db uid).length

/-- Lines 66-72, `generate_unique_meeting_code`: draw, re-draw while the code
collides with a stored meeting's code.  The unbounded Python `while True`
loop is embedded over the finite prefix `draws` of the random stream it
consumes; `none` means the loop is still running after exhausting the
prefix. -/
def generate_unique_meeting_code (draws : List Nat) (db : DB) : Option String :=
  match draws with
  | [] => none
  | d :: rest =>
    let code := format06 d
    match db.meetings.find? (fun m => m.meeting_code == code) with
    | some _ => generate_unique_meeting_code rest db
    | none => some code

/-- Lines 74-88, `serialize_meeting`: the meeting projection; each item is
copied without its `_id` field (`meeting_id` is NOT removed from items). -/
def serialize_meeting (doc : Meeting) (items : List Obj) : Obj :=
  [("meeting_id", .str doc.meeting_id),
   ("meeting_name", doc.meeting_name),
   ("current_item", .int doc.current_item),
   ("meeting_code", .str doc.meeting_code),
   ("items", .list (items.map (fun it =>
      .obj (it.filter (fun kv => kv.1 != "_id")))))]

/-- Outcome of `POST /meetings` (lines 173-204).  `noCode` marks a run whose
draw prefix never produced a free code, i.e. the generation loop has not
returned yet (not an HTTP outcome). -/
inductive CreateResult where
  | nameRequired
  | noCode
  | created (out : Obj) (db' : DB)

/-- Lines 173-204, `create_meeting`: `new_id` stands for the fresh
`str(uuid.uuid4())` and `draws` for the random stream consumed by the code
generator.  `body = none` models an absent or falsy JSON body.  On success
the stored record has `current_item = 0` and the response carries the full
created record with an empty agenda. -/
def create_meeting (body : Option Obj) (new_id : String) (draws : List Nat)
    (db : DB) : CreateResult :=
  match body with
  | none => .nameRequired
  | some b =>
    if b.isEmpty then .nameRequired
    else match b.lookup "meeting_name" with
    | none => .nameRequired
    | some nameV =>
      match generate_unique_meeting_code draws db with
      | none => .noCode
      | some code =>
        let m : Meeting := ⟨new_id, nameV, 0, code⟩
        .created
          [("meeting_id", .str new_id), ("meeting_name", nameV),
           ("current_item", .int 0), ("items", .list []),
           ("meeting_code", .str code)]
          { db with meetings := db.meetings ++ [m] }

/-- Outcome of `GET /meetings/{id}/` (lines 206-222). -/
inductive GetResult where
  | invalidUUID
  | notFound
  | ok (out : Obj)

/-- Lines 206-222, `get_meeting`. -/
def get_meeting (id : String) (db : DB) : GetResult :=
  match to_uuid id with
  | none => .invalidUUID
  | some uid =>
    match find_meeting db uid with
    | none => .notFound
    | some m => .ok (serialize_meeting m (agenda_for db uid))

/-- Side effects of a handler, in program order: the Mongo write and the
SocketIO emits (event name, room, payload parts). -/
inductive Event where
  | dbWrite (uid : String) (new_index : Int)
  | emitNextAgendaItem (room : String) (meeting_id : String) (current_item : Int)
  | emitMeetingUpdated (room : String) (payload : Obj)
  | emitAgendaItemAdded (room : String) (meeting_id : String) (item : Obj)

/-- Outcome of `PATCH /meetings/{id}/` (lines 224-281). -/
inductive UpdateResult where
  | invalidUUID
  | notFound
  | bodyRequired
  | invalidIndex
  | outOfRange (max_valid_index : Nat) (agenda_items : Nat)
  | noValidFields
  | serverError
  | ok (out : Obj)

/-- `mongo.db.meetings.update_one({"meeting_id": uid}, {"$set": {...}})`:
set `current_item` on the first matching document. -/
def set_current_item : List Meeting → String → Int → List Meeting
  | [], _, _ => []
  | m :: ms, uid, n =>
      if m.meeting_id == uid then { m with current_item := n } :: ms
      else m :: set_current_item ms uid n

/-- Lines 224-281, `update_meeting`: validation in program order, then the
write, the re-fetch, the two emits, and the 200 response.  `serverError`
models the exception Python would raise if the re-fetch after the write
found nothing (provably unreachable).  The returned triple is
(result, final DB, side effects in order). -/
def update_meeting (id : String) (body : Option Obj) (db : DB) :
    UpdateResult × DB × List Event :=
  match to_uuid id with
  | none => (.invalidUUID, db, [])
  | some uid =>
    match find_meeting db uid with
    | none => (.notFound, db, [])
    | some _ =>
      match body with
      | none => (.bodyRequired, db, [])
      | some b =>
        if b.isEmpty then (.bodyRequired, db, [])
        else match b.lookup "current_item" with
        | none => (.noValidFields, db, [])
        | some (.int n) =>
          if n < 0 then (.invalidIndex, db, [])
          else
            if (count_agenda_items db uid : Int) ≤ n then
              (.outOfRange (count_agenda_items db uid - 1)
                (count_agenda_items db uid), db, [])
            else
              match find_meeting
                  { db with meetings := set_current_item db.meetings uid n }
                  uid with
              | none =>
                  (.serverError,
                   { db with meetings := set_current_item db.meetings uid n },
                   [.dbWrite uid n])
              | some updated =>
                  (.ok (serialize_meeting updated
                         (agenda_for
                           { db with
                              meetings := set_current_item db.meetings uid n }
                           uid)),
                   { db with meetings := set_current_item db.meetings uid n },
                   [.dbWrite uid n,
                    .emitNextAgendaItem uid uid n,
                    .emitMeetingUpdated uid
                      (serialize_meeting updated
                        (agenda_for
                          { db with
                             meetings := set_current_item db.meetings uid n }
                          uid))])
        | some _ => (.invalidIndex, db, [])

/-- Outcome of `POST /meetings/{id}/agenda` (lines 283-317).  `typeError`
models the exception Python raises when `body["item"]` is not a dict. -/
inductive AddResult where
  | invalidUUID
  | notFound
  | itemRequired
  | codecError (msg : String)
  | typeError
  | added

/-- Lines 283-317, `add_agenda_item`: `oid` stands for the `_id` MongoDB
assigns on insert.  The stored document is `{"meeting_id": uid, **item}`
plus the store's `_id`. -/
def add_agenda_item (id : String) (body : Option Obj) (oid : String)
    (db : DB) : AddResult × DB × List Event :=
  match to_uuid id with
  | none => (.invalidUUID, db, [])
  | some uid =>
    match find_meeting db uid with
    | none => (.notFound, db, [])
    | some _ =>
      match body with
      | none => (.itemRequired, db, [])
      | some b =>
        if b.isEmpty then (.itemRequired, db, [])
        else match b.lookup "item" with
        | none => (.itemRequired, db, [])
        | some (.obj rawItem) =>
          match serialize_agenda_item rawItem with
          | .error e => (.codecError e, db, [])
          | .ok item =>
            let stored : Obj := ("_id", .str oid) :: ("meeting_id", .str uid) :: item
            (.added,
             { db with agenda_items := db.agenda_items ++ [stored] },
             [.emitAgendaItemAdded uid uid item])
        | some _ => (.typeError, db, [])

/-- Outcome of `GET /meetings/{id}/agenda` (lines 319-335). -/
inductive AgendaListResult where
  | invalidUUID
  | notFound
  | ok (items : List Obj)

/-- Lines 319-335, `get_agenda_items`: returns the stored documents verbatim
(no field is stripped, unlike `serialize_meeting`). -/
def get_agenda_items (id : String) (db : DB) : AgendaListResult :=
  match to_uuid id with
  | none => .invalidUUID
  | some uid =>
    match find_meeting db uid with
    | none => .notFound
    | some _ => .ok (agenda_for db uid)

/-- Whether a PATCH outcome is the 200 success. -/
def is_ok_update : UpdateResult → Bool
  | .ok _ => true
  | _ => false

/-! ## Lemmas about the pointer-advance handler -/

lemma find?_set_current_item (ms : List Meeting) (uid : String) (n : Int)
    (m : Meeting) (h : ms.find? (fun x => x.meeting_id == uid) = some m) :
    (set_current_item ms uid n).find? (fun x => x.meeting_id == uid) =
      some { m with current_item := n } := by
  induction ms with
  | nil => simp at h
  | cons a rest ih =>
    by_cases ha : (a.meeting_id == uid) = true
    · rw [List.find?_cons_of_pos (p := fun x => x.meeting_id == uid) rest ha] at h
      rw [Option.some_inj] at h
      subst h
      unfold set_current_item
      rw [if_pos ha]
      exact List.find?_cons_of_pos (p := fun x => x.meeting_id == uid) rest
        (show (({ a with current_item := n } : Meeting).meeting_id == uid) = true
          from ha)
    · rw [List.find?_cons_of_neg (p := fun x => x.meeting_id == uid) rest ha] at h
      unfold set_current_item
      rw [if_neg ha,
        List.find?_cons_of_neg (p := fun x => x.meeting_id == uid)
          (set_current_item rest uid n) ha]
      exact ih h

lemma lookup_isEmpty_false (b : Obj) (k : String) (v : JVal)
    (h : b.lookup k = some v) : b.isEmpty = false := by
  cases b with
  | nil => simp [List.lookup] at h
  | cons x xs => rfl

/-- Every run of the PATCH handler either is the one success shape — all
checks passed, the pointer is written on the found meeting, and the write is
followed by the two emits in order — or fails leaving the database unchanged
and emitting nothing. -/
lemma update_meeting_shape (id : String) (body : Option Obj) (db : DB) :
    (∃ uid m n b,
        to_uuid id = some uid ∧ find_meeting db uid = some m ∧
        body = some b ∧ b.lookup "current_item" = some (.int n) ∧ 0 ≤ n ∧
        n < (count_agenda_items db uid : Int) ∧
        update_meeting id body db =
          (.ok (serialize_meeting { m with current_item := n }
                  (agenda_for db uid)),
           { db with meetings := set_current_item db.meetings uid n },
           [.dbWrite uid n, .emitNextAgendaItem uid uid n,
            .emitMeetingUpdated uid
              (serialize_meeting { m with current_item := n }
                (agenda_for db uid))])) ∨
    (is_ok_update (update_meeting id body db).1 = false ∧
     (update_meeting id body db).2.1 = db ∧
     (update_meeting id body db).2.2 = []) := by
  cases hid : to_uuid id with
  | none => right; unfold update_meeting; simp [hid, is_ok_update]
  | some uid =>
    cases hm : find_meeting db uid with
    | none => right; unfold update_meeting; simp [hid, hm, is_ok_update]
    | some m =>
      cases body with
      | none => right; unfold update_meeting; simp [hid, hm, is_ok_update]
      | some b =>
        cases hb : b.isEmpty with
        | true => right; unfold update_meeting; simp [hid, hm, hb, is_ok_update]
        | false =>
          cases hcur : b.lookup "current_item" with
          | none =>
            right; unfold update_meeting; simp [hid, hm, hb, hcur, is_ok_update]
          | some v =>
            cases v with
            | str s =>
              right; unfold update_meeting
              simp [hid, hm, hb, hcur, is_ok_update]
            | bool c =>
              right; unfold update_meeting
              simp [hid, hm, hb, hcur, is_ok_update]
            | list l =>
              right; unfold update_meeting
              simp [hid, hm, hb, hcur, is_ok_update]
            | obj o =>
              right; unfold update_meeting
              simp [hid, hm, hb, hcur, is_ok_update]
            | int n =>
              by_cases hneg : n < 0
              · right; unfold update_meeting
                simp [hid, hm, hb, hcur, hneg, is_ok_update]
              · by_cases hrange : (count_agenda_items db uid : Int) ≤ n
                · right; unfold update_meeting
                  simp [hid, hm, hb, hcur, hneg, hrange, is_ok_update]
                · left
                  have hfix := find?_set_current_item db.meetings uid n m hm
                  have hfm : find_meeting
                      { db with meetings := set_current_item db.meetings uid n }
                      uid = some { m with current_item := n } := hfix
                  refine ⟨uid, m, n, b, rfl, hm, rfl, hcur, by omega, by omega, ?_⟩
                  unfold update_meeting
                  simp [hid, hm, hb, hcur, hneg, hrange, hfm, agenda_for]

/-! ## Demo fixtures (concrete states for witnesses and counterexamples) -/

/-- A canonical-form meeting identifier. -/
def demoUid : String := "123e4567-e89b-12d3-a456-426614174000"

def demoMeeting : Meeting := ⟨demoUid, .str "Board Sync", 0, "123456"⟩

/-- The stored document produced by adding one info item to `demoMeeting`. -/
def demoItemStored : Obj :=
  [("_id", .str "65f0aa01"), ("meeting_id", .str demoUid),
   ("type", .str "info"), ("title", .str "Welcome"),
   ("description", .str "Intro remarks")]

def demoDB : DB := ⟨[demoMeeting], [demoItemStored]⟩

/-- C2: given an existing meeting and a request whose `current_item` is a
non-negative integer `n`, the PATCH fails `IndexOutOfRange` exactly when
`n ≥ count_agenda_items`, and the error payload carries
`max_valid_index = count - 1` (Nat subtraction: 0 when the count is 0)
together with the item count; when `n < count` no `IndexOutOfRange`
failure occurs. -/
theorem advance_pointer_out_of_range_iff (id uid : String) (b : Obj) (db : DB)
    (n : Int) (m : Meeting)
    (h1 : to_uuid id = some uid)
    (h2 : find_meeting db uid = some m)
    (h3 : b.lookup "current_item" = some (.int n))
    (h4 : 0 ≤ n) :
    ((count_agenda_items db uid : Int) ≤ n →
      (update_meeting id (some b) db).1 =
        .outOfRange (count_agenda_items db uid - 1)
          (count_agenda_items db uid)) ∧
    (n < (count_agenda_items db uid : Int) →
      ∀ i c, (update_meeting id (some b) db).1 ≠ .outOfRange i c) := by
  have hb := lookup_isEmpty_false b _ _ h3
  have hneg : ¬ n < 0 := by omega
  constructor
  · intro hle
    unfold update_meeting
    simp [h1, h2, hb, h3, hneg, hle]
  · intro hlt i c
    have hfm : find_meeting
        { db with meetings := set_current_item db.meetings uid n } uid =
        some { m with current_item := n } :=
      find?_set_current_item db.meetings uid n m h2
    have hle' : ¬ (count_agenda_items db uid : Int) ≤ n := by omega
    unfold update_meeting
    simp [h1, h2, hb, h3, hneg, hle', hfm]

/-- Witness for C2 at a concrete state: one agenda item, requested index 5. -/
theorem advance_pointer_out_of_range_iff_witness :
    ((count_agenda_items demoDB demoUid : Int) ≤ 5 →
      (update_meeting demoUid (some [("current_item", .int 5)]) demoDB).1 =
        .outOfRange (count_agenda_items demoDB demoUid - 1)
          (count_agenda_items demoDB demoUid)) ∧
    ((5 : Int) < (count_agenda_items demoDB demoUid : Int) →
      ∀ i c,
        (update_meeting demoUid (some [("current_item", .int 5)]) demoDB).1 ≠
          .outOfRange i c) :=
  advance_pointer_out_of_range_iff demoUid demoUid
    [("current_item", .int 5)] demoDB 5 demoMeeting rfl rfl rfl (by omega)

/-- C3: whenever the PATCH succeeds, the request had an integer
`current_item = n`, the 200 response is the full meeting projection (exactly
the keys meeting_id, meeting_name, current_item, meeting_code, items) with
`current_item = n`, and a subsequent GET of the meeting on the resulting
database returns that very projection. -/
theorem advance_pointer_then_fetch (id : String) (body : Option Obj) (db : DB)
    (h : is_ok_update (update_meeting id body db).1 = true) :
    ∃ b n out, body = some b ∧
      b.lookup "current_item" = some (.int n) ∧
      (update_meeting id body db).1 = .ok out ∧
      out.map Prod.fst =
        ["meeting_id", "meeting_name", "current_item", "meeting_code",
         "items"] ∧
      out.lookup "current_item" = some (.int n) ∧
      get_meeting id (update_meeting id body db).2.1 = .ok out := by
  rcases update_meeting_shape id body db with
    ⟨uid, m, n, b, e1, e2, e3, e4, e5, e6, heq⟩ | ⟨hf, _, _⟩
  · refine ⟨b, n,
      serialize_meeting { m with current_item := n } (agenda_for db uid),
      e3, e4, ?_, rfl, rfl, ?_⟩
    · rw [heq]
    · rw [heq]
      have hfm : find_meeting
          { db with meetings := set_current_item db.meetings uid n } uid =
          some { m with current_item := n } :=
        find?_set_current_item db.meetings uid n m e2
      unfold get_meeting
      simp [e1, hfm, agenda_for]
  · simp [h] at hf

/-- Witness for C3: advancing the demo meeting's pointer to 0 succeeds. -/
theorem advance_pointer_then_fetch_witness :
    ∃ b n out,
      (some [("current_item", JVal.int 0)] : Option Obj) = some b ∧
      b.lookup "current_item" = some (.int n) ∧
      (update_meeting demoUid (some [("current_item", .int 0)]) demoDB).1 =
        .ok out ∧
      out.map Prod.fst =
        ["meeting_id", "meeting_name", "current_item", "meeting_code",
         "items"] ∧
      out.lookup "current_item" = some (.int n) ∧
      get_meeting demoUid
        (update_meeting demoUid (some [("current_item", .int 0)]) demoDB).2.1 =
        .ok out :=
  advance_pointer_then_fetch demoUid (some [("current_item", .int 0)])
    demoDB rfl

/-- C9: every successful PATCH produces exactly the side-effect trace
[database write, pointer-change emit, full-snapshot emit], in that order,
with both emits scoped to the meeting's room (= the meeting id): the write
precedes both broadcasts and the pointer-change event precedes the snapshot
event. -/
theorem advance_pointer_event_trace (id : String) (body : Option Obj)
    (db : DB)
    (h : is_ok_update (update_meeting id body db).1 = true) :
    ∃ uid b n payload,
      to_uuid id = some uid ∧ body = some b ∧
      b.lookup "current_item" = some (.int n) ∧
      (update_meeting id body db).2.2 =
        [.dbWrite uid n, .emitNextAgendaItem uid uid n,
         .emitMeetingUpdated uid payload] := by
  rcases update_meeting_shape id body db with
    ⟨uid, m, n, b, e1, e2, e3, e4, e5, e6, heq⟩ | ⟨hf, _, _⟩
  · exact ⟨uid, b, n, _, e1, e3, e4, by rw [heq]⟩
  · simp [h] at hf

/-- Witness for C9: the demo success run emits the two broadcasts after the
write, pointer-change first. -/
theorem advance_pointer_event_trace_witness :
    ∃ uid b n payload,
      to_uuid demoUid = some uid ∧
      (some [("current_item", JVal.int 0)] : Option Obj) = some b ∧
      b.lookup "current_item" = some (.int n) ∧
      (update_meeting demoUid (some [("current_item", .int 0)]) demoDB).2.2 =
        [.dbWrite uid n, .emitNextAgendaItem uid uid n,
         .emitMeetingUpdated uid payload] :=
  advance_pointer_event_trace demoUid (some [("current_item", .int 0)])
    demoDB rfl

/-- C10: every failing PATCH run leaves the database exactly as it was and
emits nothing — all validation failures return before the write and before
either broadcast. -/
theorem advance_pointer_error_no_write_no_broadcast (id : String)
    (body : Option Obj) (db : DB)
    (h : is_ok_update (update_meeting id body db).1 = false) :
    (update_meeting id body db).2.1 = db ∧
    (update_meeting id body db).2.2 = [] := by
  rcases update_meeting_shape id body db with
    ⟨uid, m, n, b, e1, e2, e3, e4, e5, e6, heq⟩ | ⟨hf, h1, h2⟩
  · rw [heq] at h; simp [is_ok_update] at h
  · exact ⟨h1, h2⟩

/-- Witness for C10: an out-of-range request (index 9 with one item) leaves
the database untouched and emits nothing. -/
theorem advance_pointer_error_no_write_no_broadcast_witness :
    (update_meeting demoUid (some [("current_item", .int 9)]) demoDB).2.1 =
      demoDB ∧
    (update_meeting demoUid (some [("current_item", .int 9)]) demoDB).2.2 =
      [] :=
  advance_pointer_error_no_write_no_broadcast demoUid
    (some [("current_item", .int 9)]) demoDB rfl

/-! ## Meeting-code generation and meeting creation -/

lemma format06_spec (n : Nat) :
    (format06 n).length = 6 ∧ (format06 n).data.all Char.isDigit = true := by
  have hd : ∀ m : Nat, m < 10 → (Nat.digitChar m).isDigit = true := by decide
  have h10 : ∀ k : Nat, k % 10 < 10 := fun k => Nat.mod_lt _ (by norm_num)
  refine ⟨rfl, ?_⟩
  simp only [format06, List.all, Bool.and_eq_true]
  exact ⟨hd _ (h10 _), hd _ (h10 _), hd _ (h10 _), hd _ (h10 _), hd _ (h10 _),
    hd _ (h10 _), trivial⟩

lemma generate_code_of_free (draws : List Nat) (db : DB)
    (hfree : ∃ d ∈ draws,
      db.meetings.find? (fun m => m.meeting_code == format06 d) = none) :
    ∃ d, d ∈ draws ∧
      generate_unique_meeting_code draws db = some (format06 d) ∧
      db.meetings.find? (fun m => m.meeting_code == format06 d) = none := by
  induction draws with
  | nil => simp at hfree
  | cons a rest ih =>
    cases hf : db.meetings.find? (fun m => m.meeting_code == format06 a) with
    | none =>
      refine ⟨a, List.mem_cons_self a rest, ?_, hf⟩
      simp [generate_unique_meeting_code, hf]
    | some mm =>
      have hfree' : ∃ d ∈ rest,
          db.meetings.find? (fun m => m.meeting_code == format06 d) = none := by
        rcases hfree with ⟨d, hd, hfd⟩
        rcases List.mem_cons.mp hd with rfl | hd'
        · rw [hf] at hfd; cases hfd
        · exact ⟨d, hd', hfd⟩
      rcases ih hfree' with ⟨d, hd, hgen, hfd⟩
      refine ⟨d, List.mem_cons_of_mem a hd, ?_, hfd⟩
      simp [generate_unique_meeting_code, hf, hgen]

lemma stored_codes_ne_of_find?_none (ms : List Meeting) (code : String)
    (h : ms.find? (fun m => m.meeting_code == code) = none) :
    ∀ m ∈ ms, m.meeting_code ≠ code := by
  intro m hm heq
  have h2 := List.find?_eq_none.mp h m hm
  simp [heq] at h2

/-- C8 (amended): whenever the random stream eventually draws a value whose
six-digit rendering is not a stored meeting code, the generator terminates on
that prefix and returns a six-digit numeric string drawn from the stream that
differs from every stored meeting's code — in particular, after a forced
collision the returned code differs from the colliding stored one.  (The
`hrange` hypothesis records that `random.randint(0, 999999)` only produces
values in the modelled range.) -/
theorem code_gen_returns_fresh_code (draws : List Nat) (db : DB)
    (hrange : ∀ d ∈ draws, d ≤ 999999)
    (hfree : ∃ d ∈ draws,
      db.meetings.find? (fun m => m.meeting_code == format06 d) = none) :
    ∃ code, generate_unique_meeting_code draws db = some code ∧
      code.length = 6 ∧ code.data.all Char.isDigit = true ∧
      (∃ d ∈ draws, code = format06 d) ∧
      ∀ m ∈ db.meetings, m.meeting_code ≠ code := by
  rcases generate_code_of_free draws db hfree with ⟨d, hd, hgen, hfd⟩
  exact ⟨format06 d, hgen, (format06_spec d).1, (format06_spec d).2,
    ⟨d, hd, rfl⟩, stored_codes_ne_of_find?_none _ _ hfd⟩

/-- The empty store. -/
def emptyDB : DB := ⟨[], []⟩

/-- Witness for C8 (amended): on an empty store the first draw is free. -/
theorem code_gen_returns_fresh_code_witness :
    ∃ code, generate_unique_meeting_code [123456] emptyDB = some code ∧
      code.length = 6 ∧ code.data.all Char.isDigit = true ∧
      (∃ d ∈ [123456], code = format06 d) ∧
      ∀ m ∈ emptyDB.meetings, m.meeting_code ≠ code :=
  code_gen_returns_fresh_code [123456] emptyDB (by decide)
    ⟨123456, by simp, rfl⟩

/-- The generation loop run over the prefix of length `k` of the draw
stream `s`, for every `k`: termination of the unbounded `while True` loop
means some prefix already yields a result. -/
def code_gen_terminates (s : Nat → Nat) (db : DB) : Prop :=
  ∃ k, (generate_unique_meeting_code ((List.range k).map s) db).isSome = true

/-- A store holding one meeting whose code is `"000000"`. -/
def dbOneCode : DB :=
  ⟨[⟨"11111111-1111-1111-1111-111111111111", .str "M", 0, "000000"⟩], []⟩

lemma gen_const_zero_none :
    ∀ k, generate_unique_meeting_code (List.replicate k 0) dbOneCode = none := by
  intro k
  induction k with
  | zero => rfl
  | succ k ih =>
    rw [List.replicate_succ]
    have hf : dbOneCode.meetings.find?
        (fun m => m.meeting_code == format06 0) =
        some ⟨"11111111-1111-1111-1111-111111111111", .str "M", 0, "000000"⟩ :=
      rfl
    simp [generate_unique_meeting_code, hf, ih]

/-- Counterexample to C8 as stated: with 999,999 of the 1,000,000 codes free
(only `"000000"` is taken, e.g. `"000001" = format06 1` is free), the draw
stream that always returns 0 makes the loop run forever — freeness of some
code alone does not guarantee termination; the draws must eventually hit a
free code. -/
theorem code_gen_nontermination_counterexample :
    format06 1 = "000001" ∧
    dbOneCode.meetings.find? (fun m => m.meeting_code == "000001") = none ∧
    ¬ code_gen_terminates (fun _ => 0) dbOneCode := by
  refine ⟨rfl, rfl, ?_⟩
  rintro ⟨k, hk⟩
  rw [show (List.range k).map (fun _ => 0) = List.replicate k 0 by
    simp [List.map_const', List.length_range]] at hk
  rw [gen_const_zero_none k] at hk
  simp at hk

/-- C6: for every create request carrying a `meeting_name` (and a draw
stream that eventually yields a free code), the operation persists a meeting
record with `current_item = 0` and returns exactly
`{meeting_id, meeting_name, current_item: 0, items: [], meeting_code}`, where
`meeting_code` is a six-digit numeric string distinct from all stored codes
and `meeting_name` is the input name. -/
theorem create_meeting_shape (b : Obj) (nameV : JVal) (new_id : String)
    (draws : List Nat) (db : DB)
    (hname : b.lookup "meeting_name" = some nameV)
    (hrange : ∀ d ∈ draws, d ≤ 999999)
    (hfree : ∃ d ∈ draws,
      db.meetings.find? (fun m => m.meeting_code == format06 d) = none) :
    ∃ code,
      create_meeting (some b) new_id draws db =
        .created
          [("meeting_id", .str new_id), ("meeting_name", nameV),
           ("current_item", .int 0), ("items", .list []),
           ("meeting_code", .str code)]
          { db with meetings := db.meetings ++ [⟨new_id, nameV, 0, code⟩] } ∧
      code.length = 6 ∧ code.data.all Char.isDigit = true ∧
      ∀ m ∈ db.meetings, m.meeting_code ≠ code := by
  rcases generate_code_of_free draws db hfree with ⟨d, hd, hgen, hfd⟩
  have hb := lookup_isEmpty_false b _ _ hname
  refine ⟨format06 d, ?_, (format06_spec d).1, (format06_spec d).2,
    stored_codes_ne_of_find?_none _ _ hfd⟩
  unfold create_meeting
  simp [hb, hname, hgen]

/-- Witness for C6: creating "Board Sync" on the empty store. -/
theorem create_meeting_shape_witness :
    ∃ code,
      create_meeting (some [("meeting_name", .str "Board Sync")])
          "22222222-2222-2222-2222-222222222222" [7] emptyDB =
        .created
          [("meeting_id", .str "22222222-2222-2222-2222-222222222222"),
           ("meeting_name", .str "Board Sync"),
           ("current_item", .int 0), ("items", .list []),
           ("meeting_code", .str code)]
          { emptyDB with
             meetings := emptyDB.meetings ++
               [⟨"22222222-2222-2222-2222-222222222222",
                 .str "Board Sync", 0, code⟩] } ∧
      code.length = 6 ∧ code.data.all Char.isDigit = true ∧
      ∀ m ∈ emptyDB.meetings, m.meeting_code ≠ code :=
  create_meeting_shape [("meeting_name", .str "Board Sync")]
    (.str "Board Sync") "22222222-2222-2222-2222-222222222222" [7] emptyDB
    rfl (by decide) ⟨7, by simp, rfl⟩

/-! ## Listing agenda items -/

/-- C7 (amended): for every existing meeting, `GET .../agenda` returns the
meeting's stored agenda documents verbatim, in insertion order — including
the storage fields `_id` and `meeting_id` that the stored documents carry in
addition to their variant's canonical fields (nothing is stripped, unlike in
the meeting projection, which drops `_id`). -/
theorem get_agenda_items_returns_stored_docs (id uid : String) (db : DB)
    (m : Meeting)
    (h1 : to_uuid id = some uid)
    (h2 : find_meeting db uid = some m) :
    get_agenda_items id db = .ok (agenda_for db uid) := by
  unfold get_agenda_items
  simp [h1, h2]

/-- Witness for C7 (amended) at the demo store. -/
theorem get_agenda_items_returns_stored_docs_witness :
    get_agenda_items demoUid demoDB = .ok (agenda_for demoDB demoUid) :=
  get_agenda_items_returns_stored_docs demoUid demoUid demoDB demoMeeting
    rfl rfl

/-- The seed store for the listing counterexample: the demo meeting with no
agenda items yet. -/
def dbSeed : DB := ⟨[demoMeeting], []⟩

/-- The add request used in the listing counterexample. -/
def demoAddBody : Obj :=
  [("item", .obj [("type", .str "info"), ("title", .str "Welcome"),
                  ("description", .str "Intro remarks")])]

/-- Counterexample to C7 as stated: after adding one canonical info item,
the listing returns the stored document, whose fields are
`_id, meeting_id, type, title, description` — not the canonical
`type, title, description` only: the storage identifiers are not stripped. -/
theorem agenda_listing_contains_storage_fields :
    (add_agenda_item demoUid (some demoAddBody) "65f0aa01" dbSeed).1 =
      .added ∧
    get_agenda_items demoUid
        (add_agenda_item demoUid (some demoAddBody) "65f0aa01" dbSeed).2.1 =
      .ok [demoItemStored] ∧
    demoItemStored.map Prod.fst =
      ["_id", "meeting_id", "type", "title", "description"] ∧
    (["_id", "meeting_id", "type", "title", "description"] : List String) ≠
      ["type", "title", "description"] := by
  refine ⟨rfl, rfl, rfl, by decide⟩
